import Mathlib

/-!
Verification development for a personal debt-management backend.

The embedding translates the TypeScript handler code into Lean:
the relational store becomes explicit lists of records, SQL queries
become list operations with the same join/filter/group semantics,
JavaScript `Date` values become a structured calendar model with an
epoch-milliseconds interpretation, decimal `numeric(15,2)` amounts
become exact integers in minor units (the behaviour under scrutiny only
adds, subtracts and orders amounts, operations the scaling by 100
preserves exactly), and a `throw` of an `Error` with a given message
becomes an `Except` error constructor corresponding to that throw site.
-/

/-! ## Calendar model (model of the JavaScript `Date` collaborator)

JavaScript dates in this code base are constructed with
`new Date(year, monthIndex, day, h, min, s, ms)` (local time, proleptic
Gregorian) and compared by their epoch-milliseconds value.  We model a
calendar instant structurally and give the standard day-count
interpretation; `jsDateMs` also reproduces the `Date` constructor's
normalisation of out-of-range month indices (carry into the year) and
day values (day 0 is the last day of the previous month).
-/

/-- Gregorian leap-year test. -/
def isLeap (y : Nat) : Bool :=
  (y % 4 == 0 && y % 100 != 0) || (y % 400 == 0)

/-- Number of days in year `y`. -/
def yearDays (y : Nat) : Nat := if isLeap y then 366 else 365

/-- Number of leap years strictly before year `y` (counting from year 0,
which is a leap year). -/
def leapsBefore (y : Nat) : Nat :=
  (y + 3) / 4 - (y + 99) / 100 + (y + 399) / 400

/-- Number of days strictly before January 1 of year `y`, counting day 0
as January 1 of year 0. -/
def daysBeforeYear (y : Nat) : Nat := 365 * y + leapsBefore y

/-- Number of days in month `m` (1–12) of year `y`. -/
def daysInMonth (y m : Nat) : Nat :=
  if m == 2 then (if isLeap y then 29 else 28)
  else if m == 4 || m == 6 || m == 9 || m == 11 then 30
  else 31

/-- Number of days of year `y` strictly before the first day of month
`m` (1-indexed; `daysBeforeMonth y 1 = 0`). -/
def daysBeforeMonth (y m : Nat) : Nat :=
  ((List.range (m - 1)).map (fun k => daysInMonth y (k + 1))).sum

/-- Epoch milliseconds of `new Date(y, m0, d)` at `msOfDay` milliseconds
past local midnight, where `m0` is a 0-indexed month index that may
overflow into later years and `d` a day number that may be 0 or exceed
the month length (both normalised linearly, as JavaScript does). -/
def jsDateMs (y m0 : Nat) (d : Int) (msOfDay : Nat) : Int :=
  (((daysBeforeYear (y + m0 / 12) + daysBeforeMonth (y + m0 / 12) (m0 % 12 + 1) : Nat) : Int)
      + (d - 1)) * 86400000 + (msOfDay : Int)

/-- A calendar instant: year, 1-indexed month, day of month, and
milliseconds past local midnight. -/
structure DateTime where
  year : Nat
  month : Nat
  day : Nat
  msOfDay : Nat
deriving DecidableEq, Repr

/-- Epoch milliseconds of a calendar instant. -/
def DateTime.toMs (t : DateTime) : Int :=
  jsDateMs t.year (t.month - 1) t.day t.msOfDay

/-- A structurally well-formed calendar instant: month in 1–12, day
within the month, time of day within 24 hours. -/
def DateTime.Valid (t : DateTime) : Prop :=
  1 ≤ t.month ∧ t.month ≤ 12 ∧ 1 ≤ t.day ∧ t.day ≤ daysInMonth t.year t.month ∧
    t.msOfDay ≤ 86399999

instance (t : DateTime) : Decidable t.Valid := by
  unfold DateTime.Valid; exact inferInstance

/-- Ceiling division as computed by `Math.ceil(a / b)` for a positive
integer divisor. -/
def jsCeilDiv (a b : Int) : Int := -((-a).fdiv b)

/-! ## Data model

Mirrors `src/server/src/db/schema.ts` (tables `banks`,
`loan_transactions`, `payments`).  The `numeric(15,2)` money columns are
modelled as exact integers in minor units; the auto-increment `serial`
id of
`loan_transactions` is modelled by a `nextTxId` counter in the store.
Creation/update timestamps are not modelled: no handler under
verification reads them.
-/

/-- The `loan_type` enum: `KARTU_KREDIT`, `PAYLATER`, `KTA`, `KUR`. -/
inductive LoanType where
  | kartuKredit
  | paylater
  | kta
  | kur
deriving DecidableEq, Repr

/-- A row of the `banks` table. -/
structure Bank where
  id : Nat
  nama_bank : String
  limit_pinjaman : Int
  jenis_pinjaman : LoanType
  tanggal_cetak_billing : Option Nat
  tanggal_jatuh_tempo : Nat
deriving DecidableEq, Repr

/-- A row of the `loan_transactions` table. -/
structure LoanTransaction where
  id : Nat
  bank_id : Nat
  tanggal_transaksi : DateTime
  keterangan_transaksi : String
  jumlah_transaksi : Int
  is_cicilan : Bool
deriving DecidableEq, Repr

/-- A row of the `payments` table. -/
structure Payment where
  id : Nat
  bank_id : Nat
  loan_transaction_id : Nat
  tanggal_pembayaran : DateTime
  jumlah_pembayaran : Int
deriving DecidableEq, Repr

/-- The relational store: the three tables plus the serial-id counter
for `loan_transactions`. -/
structure Store where
  banks : List Bank
  loanTransactions : List LoanTransaction
  payments : List Payment
  nextTxId : Nat
deriving DecidableEq, Repr

/-- Sum of the `jumlah_transaksi` amounts of the loan transactions that
belong to bank `bankId` (the `SUM ... WHERE bank_id = $1` query in
`createLoanTransaction`, with SQL `NULL` on an empty group read back
as 0). -/
def currentLoanSum (s : Store) (bankId : Nat) : Int :=
  ((s.loanTransactions.filter (fun t => t.bank_id == bankId)).map
    (fun t => t.jumlah_transaksi)).sum

/-! ## Report handlers

`getMonthlyReport` from `src/server/src/handlers/get_monthly_report.ts`,
`getDueDateReport` / `getUpcomingDueDates` / `getOverdueDates` from
`src/server/src/handlers/get_due_date_report.ts`.
-/

/-- Result shape of the monthly report. -/
structure MonthlyReport where
  year : Nat
  month : Nat
  total_loans : Int
  total_payments : Int
  net_debt : Int
  transaction_count : Nat
  payment_count : Nat
deriving DecidableEq, Repr

/-- The code's `new Date(year, month - 1, 1)`: first instant of day 1 of
the requested month. -/
def monthStartMs (year month : Nat) : Int := jsDateMs year (month - 1) 1 0

/-- The code's `new Date(year, month, 0, 23, 59, 59, 999)`: last instant
of the last day of the requested month. -/
def monthEndMs (year month : Nat) : Int := jsDateMs year month 0 86399999

/-- Handler `getMonthlyReport`: sums and counts the loan transactions
and payments whose date column lies in the inclusive month window, and
reports `net_debt = total_loans - total_payments`. -/
def getMonthlyReport (s : Store) (year month : Nat) : MonthlyReport :=
  let lo := monthStartMs year month
  let hi := monthEndMs year month
  let txs := s.loanTransactions.filter
    (fun t => decide (lo ≤ t.tanggal_transaksi.toMs) && decide (t.tanggal_transaksi.toMs ≤ hi))
  let pays := s.payments.filter
    (fun p => decide (lo ≤ p.tanggal_pembayaran.toMs) && decide (p.tanggal_pembayaran.toMs ≤ hi))
  let totalLoans := (txs.map (fun t => t.jumlah_transaksi)).sum
  let totalPayments := (pays.map (fun p => p.jumlah_pembayaran)).sum
  { year := year
    month := month
    total_loans := totalLoans
    total_payments := totalPayments
    net_debt := totalLoans - totalPayments
    transaction_count := txs.length
    payment_count := pays.length }

/-- Helper `calculateDaysUntilDue` from `get_due_date_report.ts`.  The
source reads `new Date()` for `today`; in this embedding the system
clock reading is passed explicitly.  Both branches of the source's
`if (targetDay < currentDay)` compute the same ceiling of the
millisecond difference between the candidate due date (current month,
day `targetDay`, midnight) and `today`, and are mirrored here. -/
def calculateDaysUntilDue (today : DateTime) (targetDay : Nat) : Int :=
  let dueMs := jsDateMs today.year (today.month - 1) (targetDay : Int) 0
  if targetDay < today.day then
    jsCeilDiv (dueMs - today.toMs) 86400000
  else
    jsCeilDiv (dueMs - today.toMs) 86400000

/-- One row of the due-date report. -/
structure DueDateRow where
  bank_id : Nat
  bank_name : String
  jenis_pinjaman : LoanType
  tanggal_jatuh_tempo : Nat
  days_until_due : Int
  outstanding_amount : Int
deriving DecidableEq, Repr

/-- SQL `LEFT JOIN` of one bank's matching detail rows: an empty match
list contributes a single all-`NULL` row, a non-empty one contributes
its values. -/
def leftJoinValues (xs : List Int) : List (Option Int) :=
  if xs.isEmpty then [none] else xs.map some

/-- SQL `SUM` over a nullable column of the joined rows (`NULL`s are
skipped; the handler reads a `NULL` total back as 0). -/
def sqlSum (l : List (Option Int)) : Int := (l.filterMap id).sum

/-- Handler `getDueDateReport`: one row per bank, built from the
bank × loan-transactions × payments double `LEFT JOIN` grouped by bank,
exactly as the Drizzle query does.  `today` is the system clock reading
consumed by `calculateDaysUntilDue` (the source takes no time
parameter). -/
def getDueDateReport (s : Store) (today : DateTime) : List DueDateRow :=
  s.banks.map (fun b =>
    let loanVals := leftJoinValues
      ((s.loanTransactions.filter (fun t => t.bank_id == b.id)).map
        (fun t => t.jumlah_transaksi))
    let payVals := leftJoinValues
      ((s.payments.filter (fun p => p.bank_id == b.id)).map
        (fun p => p.jumlah_pembayaran))
    let joined := loanVals.flatMap (fun lv => payVals.map (fun pv => (lv, pv)))
    let totalLoans := sqlSum (joined.map Prod.fst)
    let totalPayments := sqlSum (joined.map Prod.snd)
    { bank_id := b.id
      bank_name := b.nama_bank
      jenis_pinjaman := b.jenis_pinjaman
      tanggal_jatuh_tempo := b.tanggal_jatuh_tempo
      days_until_due := calculateDaysUntilDue today b.tanggal_jatuh_tempo
      outstanding_amount := totalLoans - totalPayments })

/-- Handler `getUpcomingDueDates` (default `days = 7`): filters the
due-date report to rows with `0 ≤ days_until_due ≤ days` and a positive
outstanding amount. -/
def getUpcomingDueDates (s : Store) (today : DateTime) (days : Int := 7) : List DueDateRow :=
  (getDueDateReport s today).filter (fun r =>
    decide (0 ≤ r.days_until_due) && decide (r.days_until_due ≤ days) &&
      decide (0 < r.outstanding_amount))

/-- Handler `getOverdueDates`: filters the due-date report to rows with
negative `days_until_due` and a positive outstanding amount. -/
def getOverdueDates (s : Store) (today : DateTime) : List DueDateRow :=
  (getDueDateReport s today).filter (fun r =>
    decide (r.days_until_due < 0) && decide (0 < r.outstanding_amount))

/-! ## Mutation handlers

`createLoanTransaction` from `src/unnamed/part_002` (the implemented
version), `deleteBank` from `src/server/src/handlers/delete_bank.ts`,
`updateBank` from `src/server/src/handlers/update_bank.ts`,
`updatePayment` from `src/unnamed/part_005` (the implemented version).
Each distinct `throw new Error(...)` site becomes one error
constructor.
-/

/-- Input to `createLoanTransaction` (after zod parsing). -/
structure CreateLoanTransactionInput where
  bank_id : Nat
  tanggal_transaksi : DateTime
  keterangan_transaksi : String
  jumlah_transaksi : Int
  is_cicilan : Bool
deriving DecidableEq, Repr

/-- Errors thrown by `createLoanTransaction`:
`bankNotFound` for "Bank not found",
`billingNotConfigured` for "Bank billing date not configured for Kartu
Kredit", `beforeBillingDate` for "Kartu Kredit cicilan transaction must
be after billing date", `limitExceeded current newTotal limit` for
"Transaction would exceed bank limit. Current: ..., New total would
be: ..., Limit: ...". -/
inductive CreateTxError where
  | bankNotFound
  | billingNotConfigured
  | beforeBillingDate
  | limitExceeded (current newTotal limit : Int)
deriving DecidableEq, Repr

/-- The installment billing-cycle validation inside
`createLoanTransaction`: applies only to Kartu Kredit banks when
`is_cicilan` is set; the transaction day must fall after the billing
day, or (failing that) after the due day. -/
def billingCycleCheck (bankData : Bank) (input : CreateLoanTransactionInput) :
    Except CreateTxError Unit :=
  if bankData.jenis_pinjaman == .kartuKredit && input.is_cicilan then
    match bankData.tanggal_cetak_billing with
    | none => .error .billingNotConfigured
    | some billingDay =>
      let transactionDay := input.tanggal_transaksi.day
      if transactionDay ≤ billingDay then
        if bankData.tanggal_jatuh_tempo < transactionDay then .ok ()
        else .error .beforeBillingDate
      else .ok ()
  else .ok ()

/-- The validation phase of `createLoanTransaction`: bank lookup, then
billing-cycle check, then loan-limit check (in source order); returns
the bank row on success. -/
def createTxCheck (s : Store) (input : CreateLoanTransactionInput) :
    Except CreateTxError Bank :=
  match s.banks.find? (fun b => b.id == input.bank_id) with
  | none => .error .bankNotFound
  | some bankData =>
    match billingCycleCheck bankData input with
    | .error e => .error e
    | .ok () =>
      let currentTotalLoans := currentLoanSum s input.bank_id
      let newTotal := currentTotalLoans + input.jumlah_transaksi
      if bankData.limit_pinjaman < newTotal then
        .error (.limitExceeded currentTotalLoans newTotal bankData.limit_pinjaman)
      else .ok bankData

/-- Handler `createLoanTransaction`: validates and, only on success,
inserts the new row; a thrown error leaves the store untouched, so the
store is returned alongside the outcome. -/
def createLoanTransaction (s : Store) (input : CreateLoanTransactionInput) :
    Except CreateTxError LoanTransaction × Store :=
  match createTxCheck s input with
  | .error e => (.error e, s)
  | .ok _ =>
    let tx : LoanTransaction :=
      { id := s.nextTxId
        bank_id := input.bank_id
        tanggal_transaksi := input.tanggal_transaksi
        keterangan_transaksi := input.keterangan_transaksi
        jumlah_transaksi := input.jumlah_transaksi
        is_cicilan := input.is_cicilan }
    (.ok tx,
      { s with
          loanTransactions := s.loanTransactions ++ [tx]
          nextTxId := s.nextTxId + 1 })

/-- Errors thrown by `deleteBank`: `notFound` for "Bank with ID ... not
found", `hasDependentTransactions n` for "Cannot delete bank ... There
are n related loan transactions.", `hasDependentPayments n` for "Cannot
delete bank ... There are n related payments.". -/
inductive DeleteBankError where
  | notFound
  | hasDependentTransactions (count : Nat)
  | hasDependentPayments (count : Nat)
deriving DecidableEq, Repr

/-- Handler `deleteBank`: existence check, then dependent loan
transactions, then dependent payments, then the delete itself. -/
def deleteBank (s : Store) (bankId : Nat) : Except DeleteBankError Store :=
  match s.banks.find? (fun b => b.id == bankId) with
  | none => .error .notFound
  | some _ =>
    let relatedTransactions := s.loanTransactions.filter (fun t => t.bank_id == bankId)
    if 0 < relatedTransactions.length then
      .error (.hasDependentTransactions relatedTransactions.length)
    else
      let relatedPayments := s.payments.filter (fun p => p.bank_id == bankId)
      if 0 < relatedPayments.length then
        .error (.hasDependentPayments relatedPayments.length)
      else
        .ok { s with banks := s.banks.filter (fun b => !(b.id == bankId)) }

/-- Input to `updateBank`: `none` in an outer `Option` means the field
was not supplied; for the billing day the inner `Option` is the
nullable column value. -/
structure UpdateBankInput where
  id : Nat
  nama_bank : Option String
  limit_pinjaman : Option Int
  jenis_pinjaman : Option LoanType
  tanggal_cetak_billing : Option (Option Nat)
  tanggal_jatuh_tempo : Option Nat
deriving DecidableEq, Repr

/-- Errors thrown by `updateBank`: `notFound` for "Bank with id ... not
found", `billingRequired` for "Tanggal cetak billing harus diisi untuk
jenis pinjaman Kartu Kredit", `billingOnlyForCreditCard` for "Tanggal
cetak billing hanya diperlukan untuk Kartu Kredit". -/
inductive UpdateBankError where
  | notFound
  | billingRequired
  | billingOnlyForCreditCard
deriving DecidableEq, Repr

/-- The billing-day column value `updateBank` will write (or an error),
following the source's branch structure on whether the loan type and/or
the billing day were supplied. -/
def updateBankBilling (currentBank : Bank) (input : UpdateBankInput) :
    Except UpdateBankError (Option Nat) :=
  match input.jenis_pinjaman with
  | some jp =>
    if jp == .kartuKredit then
      match input.tanggal_cetak_billing with
      | none =>
        if currentBank.jenis_pinjaman == .kartuKredit then
          .ok currentBank.tanggal_cetak_billing
        else .error .billingRequired
      | some none => .error .billingRequired
      | some (some v) => .ok (some v)
    else .ok none
  | none =>
    match input.tanggal_cetak_billing with
    | none => .ok currentBank.tanggal_cetak_billing
    | some tb =>
      if currentBank.jenis_pinjaman == .kartuKredit then
        match tb with
        | none => .error .billingRequired
        | some v => .ok (some v)
      else
        match tb with
        | some _ => .error .billingOnlyForCreditCard
        | none => .ok none

/-- Handler `updateBank`: looks the bank up, validates the loan-type /
billing-day combination, merges the supplied fields onto the current
row and writes it back. -/
def updateBank (s : Store) (input : UpdateBankInput) :
    Except UpdateBankError (Bank × Store) :=
  match s.banks.find? (fun b => b.id == input.id) with
  | none => .error .notFound
  | some currentBank =>
    match updateBankBilling currentBank input with
    | .error e => .error e
    | .ok billing =>
      let updatedBank : Bank :=
        { id := currentBank.id
          nama_bank := input.nama_bank.getD currentBank.nama_bank
          limit_pinjaman := input.limit_pinjaman.getD currentBank.limit_pinjaman
          jenis_pinjaman := input.jenis_pinjaman.getD currentBank.jenis_pinjaman
          tanggal_cetak_billing := billing
          tanggal_jatuh_tempo := input.tanggal_jatuh_tempo.getD currentBank.tanggal_jatuh_tempo }
      .ok (updatedBank,
        { s with banks := s.banks.map (fun b => if b.id == input.id then updatedBank else b) })

/-- Input to `updatePayment`: `none` means the field was not supplied. -/
structure UpdatePaymentInput where
  id : Nat
  bank_id : Option Nat
  loan_transaction_id : Option Nat
  tanggal_pembayaran : Option DateTime
  jumlah_pembayaran : Option Int
deriving DecidableEq, Repr

/-- Errors thrown by `updatePayment`: `paymentNotFound id` for "Payment
with ID ... not found", `bankNotFound id` for "Bank with ID ... not
found", `loanTransactionNotFoundForBank txId bankId` for the single
combined lookup failure "Loan transaction with ID ... not found for
bank ID ..." (raised both when the transaction id does not exist and
when it exists under a different bank). -/
inductive UpdatePaymentError where
  | paymentNotFound (id : Nat)
  | bankNotFound (id : Nat)
  | loanTransactionNotFoundForBank (txId bankId : Nat)
deriving DecidableEq, Repr

/-- The bank-existence validation inside `updatePayment`: only runs
when a bank id is supplied in the update input. -/
def updatePaymentBankCheck (s : Store) (input : UpdatePaymentInput) :
    Except UpdatePaymentError Unit :=
  match input.bank_id with
  | none => .ok ()
  | some bid =>
    match s.banks.find? (fun b => b.id == bid) with
    | none => .error (.bankNotFound bid)
    | some _ => .ok ()

/-- Handler `updatePayment`: payment lookup, bank lookup when a bank id
is supplied, then a single query for a loan transaction having both the
target transaction id and the target bank id, then the merge-and-write. -/
def updatePayment (s : Store) (input : UpdatePaymentInput) :
    Except UpdatePaymentError (Payment × Store) :=
  match s.payments.find? (fun p => p.id == input.id) with
  | none => .error (.paymentNotFound input.id)
  | some existingPayment =>
    match updatePaymentBankCheck s input with
    | .error e => .error e
    | .ok () =>
      let targetBankId := input.bank_id.getD existingPayment.bank_id
      let targetLoanTransactionId :=
        input.loan_transaction_id.getD existingPayment.loan_transaction_id
      match s.loanTransactions.find?
          (fun t => t.id == targetLoanTransactionId && t.bank_id == targetBankId) with
      | none => .error (.loanTransactionNotFoundForBank targetLoanTransactionId targetBankId)
      | some _ =>
        let updatedPayment : Payment :=
          { id := existingPayment.id
            bank_id := targetBankId
            loan_transaction_id := targetLoanTransactionId
            tanggal_pembayaran :=
              input.tanggal_pembayaran.getD existingPayment.tanggal_pembayaran
            jumlah_pembayaran :=
              input.jumlah_pembayaran.getD existingPayment.jumlah_pembayaran }
        .ok (updatedPayment,
          { s with payments :=
              s.payments.map (fun p => if p.id == input.id then updatedPayment else p) })

/-- Membership of a calendar instant in the calendar month `(Y, M)`,
as the spec words it ("a transaction dated in February must not appear
in a January query"); compared against the code's millisecond window in
the monthly-report theorem. -/
def inCalendarMonth (Y M : Nat) (d : DateTime) : Bool :=
  d.year == Y && d.month == M

/-! ## Concrete fixtures

Small stores, inputs and clock readings used by the witness and
counterexample theorems below.
-/

/-- System clock reading used for the due-date report fixtures:
January 10, midnight. -/
def c1Clock : DateTime := ⟨5, 1, 10, 0⟩

/-- A store with one bank owning two loan transactions (100 and 200)
and two payments (50 and 50). -/
def c1Store : Store :=
  { banks := [⟨1, "Alpha", 10000, .kta, none, 15⟩]
    loanTransactions :=
      [⟨1, 1, ⟨5, 1, 2, 0⟩, "first loan", 100, false⟩,
       ⟨2, 1, ⟨5, 1, 3, 0⟩, "second loan", 200, false⟩]
    payments :=
      [⟨1, 1, 1, ⟨5, 1, 4, 0⟩, 50⟩,
       ⟨2, 1, 1, ⟨5, 1, 5, 0⟩, 50⟩]
    nextTxId := 3 }

/-- A store with a single credit-card bank (billing day 5). -/
def c2Store : Store :=
  { banks := [⟨1, "Beta", 1000, .kartuKredit, some 5, 15⟩]
    loanTransactions := []
    payments := []
    nextTxId := 1 }

/-- An update that changes the category away from credit-card while
explicitly supplying a non-null billing day. -/
def c2Input : UpdateBankInput := ⟨1, none, none, some .kta, some (some 7), none⟩

/-- The bank row `updateBank` writes for `c2Input`: category changed,
billing day silently forced to null. -/
def c2UpdatedBank : Bank := ⟨1, "Beta", 1000, .kta, none, 15⟩

/-- The store after the `c2Input` update. -/
def c2NewStore : Store :=
  { banks := [c2UpdatedBank], loanTransactions := [], payments := [], nextTxId := 1 }

/-- A store with one bank with due day 15 and no activity. -/
def c3Store : Store :=
  { banks := [⟨1, "Gamma", 1000, .kta, none, 15⟩]
    loanTransactions := []
    payments := []
    nextTxId := 1 }

/-- Same banks as `c3Store` but with an extra payment row. -/
def c3StoreB : Store :=
  { banks := [⟨1, "Gamma", 1000, .kta, none, 15⟩]
    loanTransactions := []
    payments := [⟨1, 1, 1, ⟨5, 5, 1, 0⟩, 10⟩]
    nextTxId := 1 }

/-- System clock reading: day 5 of the month, before the due day. -/
def c3ClockEarly : DateTime := ⟨5, 5, 5, 0⟩

/-- System clock reading: day 20 of the same month, past the due day. -/
def c3ClockLate : DateTime := ⟨5, 5, 20, 0⟩

/-- A credit-card bank with billing day 10, due day 5 and limit 100. -/
def c4Bank : Bank := ⟨1, "Delta", 100, .kartuKredit, some 10, 5⟩

/-- A store holding only `c4Bank`, with no loan transactions. -/
def c4Store : Store :=
  { banks := [c4Bank], loanTransactions := [], payments := [], nextTxId := 1 }

/-- An installment transaction on day 3 (within the billing window)
whose amount 200 also exceeds the limit 100. -/
def c4Input : CreateLoanTransactionInput :=
  ⟨1, ⟨5, 3, 3, 0⟩, "installment purchase", 200, true⟩

/-- An installment transaction on day 12 (past the billing day) whose
amount 200 exceeds the limit 100. -/
def c4InputOk : CreateLoanTransactionInput :=
  ⟨1, ⟨5, 3, 12, 0⟩, "post-billing purchase", 200, true⟩

/-- Two banks, one loan transaction owned by bank 1, one payment. -/
def c6Store : Store :=
  { banks := [⟨1, "Epsilon", 1000, .kta, none, 10⟩, ⟨2, "Zeta", 1000, .kta, none, 12⟩]
    loanTransactions := [⟨1, 1, ⟨5, 1, 2, 0⟩, "loan", 100, false⟩]
    payments := [⟨1, 1, 1, ⟨5, 1, 3, 0⟩, 30⟩]
    nextTxId := 2 }

/-- Payment update that targets a loan transaction id that exists in no
row at all. -/
def c6MissingInput : UpdatePaymentInput := ⟨1, none, some 99, none, none⟩

/-- Payment update that targets an existing loan transaction (id 1,
owned by bank 1) under a different bank (id 2). -/
def c6MismatchInput : UpdatePaymentInput := ⟨1, some 2, some 1, none, none⟩

/-- Payment update that only changes the amount. -/
def c6GoodInput : UpdatePaymentInput := ⟨1, none, none, none, some 40⟩

/-- The payment row written for `c6GoodInput`. -/
def c6UpdatedPay : Payment := ⟨1, 1, 1, ⟨5, 1, 3, 0⟩, 40⟩

/-- The store after the `c6GoodInput` update. -/
def c6NewStore : Store :=
  { banks := [⟨1, "Epsilon", 1000, .kta, none, 10⟩, ⟨2, "Zeta", 1000, .kta, none, 12⟩]
    loanTransactions := [⟨1, 1, ⟨5, 1, 2, 0⟩, "loan", 100, false⟩]
    payments := [c6UpdatedPay]
    nextTxId := 2 }

/-- Store with two transactions and one payment inside January of year
2024 and one transaction in February. -/
def c7Store : Store :=
  { banks := [⟨1, "Eta", 100000, .kartuKredit, some 15, 25⟩]
    loanTransactions :=
      [⟨1, 1, ⟨2024, 1, 15, 0⟩, "purchase one", 1500, false⟩,
       ⟨2, 1, ⟨2024, 1, 20, 0⟩, "purchase two", 2500, false⟩,
       ⟨3, 1, ⟨2024, 2, 10, 0⟩, "february purchase", 999, false⟩]
    payments := [⟨1, 1, 1, ⟨2024, 1, 10, 0⟩, 500⟩]
    nextTxId := 4 }

/-- A bank with one open loan (100) and one partial payment (40), due
day 15. -/
def c8Store : Store :=
  { banks := [⟨1, "Theta", 1000, .kta, none, 15⟩]
    loanTransactions := [⟨1, 1, ⟨5, 1, 2, 0⟩, "loan", 100, false⟩]
    payments := [⟨1, 1, 1, ⟨5, 1, 3, 0⟩, 40⟩]
    nextTxId := 2 }

/-- The single due-date row produced for `c8Store` at clock `c1Clock`
(due day 15, clock day 10, outstanding 60). -/
def c8Row : DueDateRow := ⟨1, "Theta", .kta, 15, 5, 60⟩

/-- Two banks: bank 1 has a loan transaction and a payment, bank 2 has
no dependents. -/
def c9Store : Store :=
  { banks := [⟨1, "Iota", 1000, .kta, none, 10⟩, ⟨2, "Kappa", 1000, .kta, none, 12⟩]
    loanTransactions := [⟨1, 1, ⟨5, 1, 2, 0⟩, "loan", 100, false⟩]
    payments := [⟨1, 1, 1, ⟨5, 1, 3, 0⟩, 30⟩]
    nextTxId := 2 }

/-- A store with a bank, one prior loan transaction and no payments. -/
def c10StoreA : Store :=
  { banks := [⟨1, "Lambda", 1000, .kta, none, 10⟩]
    loanTransactions := [⟨1, 1, ⟨5, 1, 2, 0⟩, "prior loan", 300, false⟩]
    payments := []
    nextTxId := 5 }

/-- Same banks, transactions and id counter as `c10StoreA`, but with
the loan fully repaid by payments. -/
def c10StoreB : Store :=
  { banks := [⟨1, "Lambda", 1000, .kta, none, 10⟩]
    loanTransactions := [⟨1, 1, ⟨5, 1, 2, 0⟩, "prior loan", 300, false⟩]
    payments := [⟨1, 1, 1, ⟨5, 1, 3, 0⟩, 300⟩]
    nextTxId := 5 }

/-- A new 800 loan: together with the prior 300 it exceeds the 1000
limit, whether or not the payments of `c10StoreB` are present. -/
def c10Input : CreateLoanTransactionInput :=
  ⟨1, ⟨5, 1, 4, 0⟩, "new loan", 800, false⟩

/-- A new 700 loan: together with the prior 300 it exactly reaches the
1000 limit. -/
def c10InputOk : CreateLoanTransactionInput :=
  ⟨1, ⟨5, 1, 4, 0⟩, "new loan", 700, false⟩

/-- The transaction row created for `c10InputOk`. -/
def c10Tx : LoanTransaction := ⟨5, 1, ⟨5, 1, 4, 0⟩, "new loan", 700, false⟩

/-! ## Calendar facts

Day-count arithmetic used to characterise the monthly window:
a valid calendar instant lies in the `[monthStartMs, monthEndMs]`
window of year `Y`, month `M` exactly when its year is `Y` and its
month is `M`.
-/

/-- Day index of a calendar date: days elapsed since January 1 of
year 0. -/
def dayNumber (y m d : Nat) : Nat :=
  daysBeforeYear y + daysBeforeMonth y m + (d - 1)

set_option maxHeartbeats 1000000 in
theorem daysBeforeYear_succ (y : Nat) :
    daysBeforeYear (y + 1) = daysBeforeYear y + yearDays y := by
  unfold daysBeforeYear leapsBefore yearDays
  by_cases h : isLeap y = true
  · rw [if_pos h]
    unfold isLeap at h
    simp only [Bool.or_eq_true, Bool.and_eq_true, beq_iff_eq, bne_iff_ne] at h
    rcases h with ⟨h4, h100⟩ | h400
    · omega
    · omega
  · rw [if_neg h]
    unfold isLeap at h
    simp only [Bool.or_eq_true, Bool.and_eq_true, beq_iff_eq, bne_iff_ne, not_or,
      not_and_or] at h
    omega

theorem daysBeforeYear_mono {y1 y2 : Nat} (h : y1 ≤ y2) :
    daysBeforeYear y1 ≤ daysBeforeYear y2 := by
  induction y2 with
  | zero =>
    have hz : y1 = 0 := by omega
    subst hz; exact le_rfl
  | succ n ih =>
    rcases Nat.lt_or_ge y1 (n + 1) with hlt | hge
    · have h1 := daysBeforeYear_succ n
      have h2 := ih (by omega)
      omega
    · have he : y1 = n + 1 := by omega
      subst he; exact le_rfl

theorem daysInMonth_pos (y m : Nat) : 1 ≤ daysInMonth y m := by
  unfold daysInMonth
  split
  · split <;> omega
  · split <;> omega

theorem daysBeforeMonth_succ (y m : Nat) (h : 1 ≤ m) :
    daysBeforeMonth y (m + 1) = daysBeforeMonth y m + daysInMonth y m := by
  unfold daysBeforeMonth
  have hm : m + 1 - 1 = (m - 1) + 1 := by omega
  rw [hm, List.range_succ]
  have hd : m - 1 + 1 = m := by omega
  simp [hd]

theorem daysBeforeMonth_mono (y : Nat) {m1 m2 : Nat} (h : m1 ≤ m2) :
    daysBeforeMonth y m1 ≤ daysBeforeMonth y m2 := by
  unfold daysBeforeMonth
  have key : ∀ a b : Nat, a ≤ b →
      ((List.range a).map (fun k => daysInMonth y (k + 1))).sum ≤
        ((List.range b).map (fun k => daysInMonth y (k + 1))).sum := by
    intro a b hab
    induction b with
    | zero =>
      have hz : a = 0 := by omega
      subst hz; exact le_rfl
    | succ n ih =>
      rcases Nat.lt_or_ge a (n + 1) with hlt | hge
      · have h1 := ih (by omega)
        rw [List.range_succ]
        simp only [List.map_append, List.sum_append, List.map_cons, List.sum_cons,
          List.map_nil, List.sum_nil]
        omega
      · have he : a = n + 1 := by omega
        subst he; exact le_rfl
  exact key (m1 - 1) (m2 - 1) (by omega)

theorem daysBeforeMonth_13 (y : Nat) : daysBeforeMonth y 13 = yearDays y := by
  have hr : List.range 12 = [0, 1, 2, 3, 4, 5, 6, 7, 8, 9, 10, 11] := rfl
  unfold daysBeforeMonth yearDays
  rcases h : isLeap y <;> simp [hr, daysInMonth, h]

/-- Within a valid month, the day offset stays below the year length. -/
theorem dayOffset_lt_yearDays {y m d : Nat} (hm1 : 1 ≤ m) (hm2 : m ≤ 12)
    (hd : d ≤ daysInMonth y m) :
    daysBeforeMonth y m + (d - 1) < yearDays y := by
  have h1 : daysBeforeMonth y m + (d - 1) < daysBeforeMonth y m + daysInMonth y m := by
    have := daysInMonth_pos y m
    omega
  have h2 : daysBeforeMonth y m + daysInMonth y m = daysBeforeMonth y (m + 1) :=
    (daysBeforeMonth_succ y m hm1).symm
  have h3 : daysBeforeMonth y (m + 1) ≤ daysBeforeMonth y 13 :=
    daysBeforeMonth_mono y (by omega)
  rw [daysBeforeMonth_13] at h3
  omega

/-- Strict monotonicity of the day index in the lexicographic calendar
order, for dates with valid month and day fields on the left. -/
theorem dayNumber_lt {y1 m1 d1 y2 m2 d2 : Nat}
    (hm1 : 1 ≤ m1) (hm2 : m1 ≤ 12) (hd1 : 1 ≤ d1) (hd2 : d1 ≤ daysInMonth y1 m1)
    (hd2' : 1 ≤ d2)
    (hlex : y1 < y2 ∨ (y1 = y2 ∧ m1 < m2) ∨ (y1 = y2 ∧ m1 = m2 ∧ d1 < d2)) :
    dayNumber y1 m1 d1 < dayNumber y2 m2 d2 := by
  unfold dayNumber
  rcases hlex with hy | ⟨hy, hm⟩ | ⟨hy, hm, hd⟩
  · have hb : daysBeforeMonth y1 m1 + (d1 - 1) < yearDays y1 :=
      dayOffset_lt_yearDays hm1 hm2 hd2
    have hs : daysBeforeYear (y1 + 1) = daysBeforeYear y1 + yearDays y1 :=
      daysBeforeYear_succ y1
    have hmono : daysBeforeYear (y1 + 1) ≤ daysBeforeYear y2 :=
      daysBeforeYear_mono (by omega)
    omega
  · subst hy
    have h1 : daysBeforeMonth y1 m1 + (d1 - 1) < daysBeforeMonth y1 (m1 + 1) := by
      rw [daysBeforeMonth_succ y1 m1 hm1]
      have := daysInMonth_pos y1 m1
      omega
    have h2 : daysBeforeMonth y1 (m1 + 1) ≤ daysBeforeMonth y1 m2 :=
      daysBeforeMonth_mono y1 (by omega)
    omega
  · subst hy; subst hm
    omega

theorem toMs_eq_dayNumber (t : DateTime) (hm1 : 1 ≤ t.month) (hm2 : t.month ≤ 12)
    (hd : 1 ≤ t.day) :
    t.toMs = (dayNumber t.year t.month t.day : Int) * 86400000 + (t.msOfDay : Int) := by
  unfold DateTime.toMs jsDateMs dayNumber
  have h1 : (t.month - 1) / 12 = 0 := by omega
  have h2 : (t.month - 1) % 12 + 1 = t.month := by omega
  rw [h1, h2]
  simp only [Nat.add_zero]
  omega

theorem monthStartMs_eq (Y M : Nat) (hm1 : 1 ≤ M) (hm2 : M ≤ 12) :
    monthStartMs Y M = (dayNumber Y M 1 : Int) * 86400000 := by
  unfold monthStartMs jsDateMs dayNumber
  have h1 : (M - 1) / 12 = 0 := by omega
  have h2 : (M - 1) % 12 + 1 = M := by omega
  rw [h1, h2]
  simp only [Nat.add_zero]
  omega

theorem monthEndMs_eq (Y M : Nat) (hm1 : 1 ≤ M) (hm2 : M ≤ 12) :
    monthEndMs Y M = (dayNumber Y M (daysInMonth Y M) : Int) * 86400000 + 86399999 := by
  unfold monthEndMs jsDateMs dayNumber
  rcases Nat.lt_or_ge M 12 with h | h
  · have h1 : M / 12 = 0 := by omega
    have h2 : M % 12 + 1 = M + 1 := by omega
    rw [h1, h2]
    simp only [Nat.add_zero]
    rw [daysBeforeMonth_succ Y M hm1]
    have h3 := daysInMonth_pos Y M
    omega
  · have hM : M = 12 := by omega
    subst hM
    have h1 : (12 : Nat) / 12 = 1 := rfl
    have h2 : (12 : Nat) % 12 + 1 = 1 := rfl
    rw [h1, h2]
    have h3 := daysBeforeYear_succ Y
    have h4 := daysBeforeMonth_13 Y
    have h5 : daysBeforeMonth Y 12 + daysInMonth Y 12 = daysBeforeMonth Y 13 :=
      (daysBeforeMonth_succ Y 12 (by omega)).symm
    have h6 : daysInMonth Y 12 = 31 := rfl
    have h7 : daysBeforeMonth (Y + 1) 1 = 0 := rfl
    rw [h7]
    omega

/-- A valid calendar instant lies in the code's month window for
`(Y, M)` exactly when its calendar year is `Y` and its calendar month
is `M`. -/
theorem toMs_in_window_iff (Y M : Nat) (hm1 : 1 ≤ M) (hm2 : M ≤ 12)
    (t : DateTime) (hv : t.Valid) :
    (monthStartMs Y M ≤ t.toMs ∧ t.toMs ≤ monthEndMs Y M) ↔ (t.year = Y ∧ t.month = M) := by
  obtain ⟨hvm1, hvm2, hvd1, hvd2, hvms⟩ := hv
  rw [toMs_eq_dayNumber t hvm1 hvm2 hvd1, monthStartMs_eq Y M hm1 hm2,
    monthEndMs_eq Y M hm1 hm2]
  constructor
  · rintro ⟨hlo, hhi⟩
    by_contra hne
    have hcases : (t.year < Y ∨ (t.year = Y ∧ t.month < M)) ∨
        (Y < t.year ∨ (Y = t.year ∧ M < t.month)) := by
      rcases Nat.lt_trichotomy t.year Y with h | h | h
      · exact Or.inl (Or.inl h)
      · rcases Nat.lt_trichotomy t.month M with h2 | h2 | h2
        · exact Or.inl (Or.inr ⟨h, h2⟩)
        · exact absurd ⟨h, h2⟩ hne
        · exact Or.inr (Or.inr ⟨h.symm, h2⟩)
      · exact Or.inr (Or.inl h)
    rcases hcases with hlt | hgt
    · have hN : dayNumber t.year t.month t.day < dayNumber Y M 1 :=
        dayNumber_lt hvm1 hvm2 hvd1 hvd2 (by omega) (by tauto)
      omega
    · have hN : dayNumber Y M (daysInMonth Y M) < dayNumber t.year t.month t.day :=
        dayNumber_lt hm1 hm2 (daysInMonth_pos Y M) le_rfl hvd1 (by tauto)
      omega
  · rintro ⟨hy, hm⟩
    subst hy; subst hm
    have h1 : dayNumber t.year t.month 1 ≤ dayNumber t.year t.month t.day := by
      unfold dayNumber; omega
    have h2 : dayNumber t.year t.month t.day ≤
        dayNumber t.year t.month (daysInMonth t.year t.month) := by
      unfold dayNumber; omega
    constructor <;> omega

/-! ## Claim theorems -/

/-- C7: the monthly report for year `Y` and month `M` counts and sums
exactly the loan transactions and payments whose transaction/payment
date falls inclusively between the first instant of day 1 of the month
and 23:59:59.999 of its last day — equivalently (for well-formed
dates), exactly the rows whose calendar year is `Y` and calendar month
is `M`; out-of-month rows are excluded, an empty window yields zero
totals and counts (the sum and length of an empty filter), and
`net_debt = total_loans - total_payments`. -/
theorem getMonthlyReport_calendar_month (s : Store) (Y M : Nat)
    (hm1 : 1 ≤ M) (hm2 : M ≤ 12)
    (hT : ∀ t ∈ s.loanTransactions, t.tanggal_transaksi.Valid)
    (hP : ∀ p ∈ s.payments, p.tanggal_pembayaran.Valid) :
    getMonthlyReport s Y M =
      { year := Y
        month := M
        total_loans := ((s.loanTransactions.filter
            (fun t => inCalendarMonth Y M t.tanggal_transaksi)).map
            (fun t => t.jumlah_transaksi)).sum
        total_payments := ((s.payments.filter
            (fun p => inCalendarMonth Y M p.tanggal_pembayaran)).map
            (fun p => p.jumlah_pembayaran)).sum
        net_debt := ((s.loanTransactions.filter
            (fun t => inCalendarMonth Y M t.tanggal_transaksi)).map
            (fun t => t.jumlah_transaksi)).sum -
          ((s.payments.filter
            (fun p => inCalendarMonth Y M p.tanggal_pembayaran)).map
            (fun p => p.jumlah_pembayaran)).sum
        transaction_count := (s.loanTransactions.filter
            (fun t => inCalendarMonth Y M t.tanggal_transaksi)).length
        payment_count := (s.payments.filter
            (fun p => inCalendarMonth Y M p.tanggal_pembayaran)).length } := by
  have htx : s.loanTransactions.filter
      (fun t => decide (monthStartMs Y M ≤ t.tanggal_transaksi.toMs) &&
        decide (t.tanggal_transaksi.toMs ≤ monthEndMs Y M)) =
      s.loanTransactions.filter (fun t => inCalendarMonth Y M t.tanggal_transaksi) := by
    apply List.filter_congr
    intro t ht
    have hiff := toMs_in_window_iff Y M hm1 hm2 t.tanggal_transaksi (hT t ht)
    rw [Bool.eq_iff_iff]
    simp only [Bool.and_eq_true, decide_eq_true_eq, inCalendarMonth, beq_iff_eq]
    exact hiff
  have hpay : s.payments.filter
      (fun p => decide (monthStartMs Y M ≤ p.tanggal_pembayaran.toMs) &&
        decide (p.tanggal_pembayaran.toMs ≤ monthEndMs Y M)) =
      s.payments.filter (fun p => inCalendarMonth Y M p.tanggal_pembayaran) := by
    apply List.filter_congr
    intro p hp
    have hiff := toMs_in_window_iff Y M hm1 hm2 p.tanggal_pembayaran (hP p hp)
    rw [Bool.eq_iff_iff]
    simp only [Bool.and_eq_true, decide_eq_true_eq, inCalendarMonth, beq_iff_eq]
    exact hiff
  simp only [getMonthlyReport]
  rw [htx, hpay]

/-- Witness for C7 at a concrete store: the January 2024 report sums
the two January transactions (1500 + 2500) and the one January payment
(500), excludes the February transaction, and reports the net debt
3500. -/
theorem getMonthlyReport_calendar_month_witness :
    getMonthlyReport c7Store 2024 1 =
      { year := 2024
        month := 1
        total_loans := 4000
        total_payments := 500
        net_debt := 3500
        transaction_count := 2
        payment_count := 1 } := by
  rw [getMonthlyReport_calendar_month c7Store 2024 1 (by decide) (by decide)
    (by decide) (by decide)]
  decide

/-- C1 (evaluation at the failing input): with two loan transactions
(100 and 200) and two payments (50 and 50) on the same bank, the
due-date report's outstanding amount is 400 — each transaction and each
payment is double-counted by the bank × transactions × payments double
left join — while the sum of all loan amounts minus the sum of all
payment amounts is 200. -/
theorem dueDateReport_fanout_eval :
    ((getDueDateReport c1Store c1Clock).map (fun r => r.outstanding_amount) = [400])
    ∧ ((c1Store.loanTransactions.map (fun t => t.jumlah_transaksi)).sum -
        (c1Store.payments.map (fun p => p.jumlah_pembayaran)).sum = (200 : Int)) := by
  decide

/-- C3 (amended): the due-date rows computation takes no caller-supplied
reference instant; its days-until-due values are a function of the
system clock reading and of each bank's due day only.  For a fixed
clock reading the computation is deterministic and independent of the
transaction and payment tables, but (see the counterexample) not of the
clock itself. -/
theorem dueDateRows_clock_dependence (s1 s2 : Store) (today : DateTime)
    (h : s1.banks = s2.banks) :
    ((getDueDateReport s1 today).map (fun r => r.days_until_due) =
      (getDueDateReport s2 today).map (fun r => r.days_until_due))
    ∧ ((getDueDateReport s1 today).map (fun r => r.days_until_due) =
      s1.banks.map (fun b => calculateDaysUntilDue today b.tanggal_jatuh_tempo)) := by
  have e1 : (getDueDateReport s1 today).map (fun r => r.days_until_due) =
      s1.banks.map (fun b => calculateDaysUntilDue today b.tanggal_jatuh_tempo) := by
    unfold getDueDateReport
    rw [List.map_map]
    rfl
  have e2 : (getDueDateReport s2 today).map (fun r => r.days_until_due) =
      s2.banks.map (fun b => calculateDaysUntilDue today b.tanggal_jatuh_tempo) := by
    unfold getDueDateReport
    rw [List.map_map]
    rfl
  exact ⟨by rw [e1, e2, h], e1⟩

/-- C3 (counterexample): the same store queried at two different system
clock readings (day 5 and day 20 of the same month, due day 15) yields
different days-until-due values (10 versus −5), so the computation does
depend on the implicit system time; no caller-supplied instant exists
that would fix it. -/
theorem dueDateRows_clock_counterexample :
    ((getDueDateReport c3Store c3ClockEarly).map (fun r => r.days_until_due) = [10])
    ∧ ((getDueDateReport c3Store c3ClockLate).map (fun r => r.days_until_due) = [-5]) := by
  decide

/-- Witness for C3's amended theorem: two stores with the same banks but
different payment tables produce identical days-until-due values at the
same clock reading. -/
theorem dueDateRows_clock_dependence_witness :
    (getDueDateReport c3Store c3ClockEarly).map (fun r => r.days_until_due) =
      (getDueDateReport c3StoreB c3ClockEarly).map (fun r => r.days_until_due) :=
  (dueDateRows_clock_dependence c3Store c3StoreB c3ClockEarly rfl).1

/-- C8: the upcoming-due-dates operation returns exactly the due-date
report rows with `0 ≤ days_until_due ≤ n` and positive outstanding
amount (with `n = 7` when the caller supplies no bound), the overdue
operation returns exactly the rows with `days_until_due < 0` and
positive outstanding amount, and a fully-paid bank (outstanding 0)
appears in neither. -/
theorem upcomingOverdue_filter (s : Store) (today : DateTime) (n : Int) (r : DueDateRow) :
    (r ∈ getUpcomingDueDates s today n ↔
      r ∈ getDueDateReport s today ∧ 0 ≤ r.days_until_due ∧ r.days_until_due ≤ n ∧
        0 < r.outstanding_amount)
    ∧ (r ∈ getUpcomingDueDates s today ↔
      r ∈ getDueDateReport s today ∧ 0 ≤ r.days_until_due ∧ r.days_until_due ≤ 7 ∧
        0 < r.outstanding_amount)
    ∧ (r ∈ getOverdueDates s today ↔
      r ∈ getDueDateReport s today ∧ r.days_until_due < 0 ∧ 0 < r.outstanding_amount)
    ∧ (r.outstanding_amount = 0 →
        r ∉ getUpcomingDueDates s today n ∧ r ∉ getOverdueDates s today) := by
  refine ⟨?_, ?_, ?_, ?_⟩
  · unfold getUpcomingDueDates
    simp [List.mem_filter, and_assoc]
  · unfold getUpcomingDueDates
    simp [List.mem_filter, and_assoc]
  · unfold getOverdueDates
    simp [List.mem_filter, and_assoc]
  · intro h0
    constructor
    · unfold getUpcomingDueDates
      simp [List.mem_filter, h0]
    · unfold getOverdueDates
      simp [List.mem_filter, h0]

/-- Witness for C8: the bank of `c8Store` (due in 5 days, outstanding
60) appears in the 7-day upcoming filter. -/
theorem upcomingOverdue_filter_witness :
    c8Row ∈ getUpcomingDueDates c8Store c1Clock 7 :=
  (upcomingOverdue_filter c8Store c1Clock 7 c8Row).1.mpr (by decide)

/-- C2 (amended): on bank update, when the category field is left
unsupplied, the current category is not the credit-card type and a
non-null billing day is supplied, the update fails with the
billing-only-for-credit-card error; but when the update supplies a
non-credit-card category, it succeeds with the billing day silently
forced to null, regardless of whether (and with what value) a billing
day was supplied. -/
theorem updateBank_nonCreditCard_billing (s : Store) (input : UpdateBankInput)
    (currentBank : Bank)
    (hfind : s.banks.find? (fun b => b.id == input.id) = some currentBank) :
    (∀ jp, input.jenis_pinjaman = some jp → jp ≠ .kartuKredit →
      (updateBank s input).map (fun x => x.1.tanggal_cetak_billing) = .ok none)
    ∧ (input.jenis_pinjaman = none → currentBank.jenis_pinjaman ≠ .kartuKredit →
        ∀ v, input.tanggal_cetak_billing = some (some v) →
          updateBank s input = .error .billingOnlyForCreditCard) := by
  constructor
  · intro jp hjp hne
    have hfalse : (jp == LoanType.kartuKredit) = false := by
      cases jp <;> simp_all
    have hb : updateBankBilling currentBank input = .ok none := by
      unfold updateBankBilling
      rw [hjp]
      simp [hfalse]
    simp [updateBank, hfind, hb, Except.map]
  · intro hnone hcur v hv
    have hfalse : (currentBank.jenis_pinjaman == LoanType.kartuKredit) = false := by
      cases h : currentBank.jenis_pinjaman <;> simp_all
    have hb : updateBankBilling currentBank input = .error .billingOnlyForCreditCard := by
      unfold updateBankBilling
      rw [hnone, hv]
      simp [hfalse]
    simp [updateBank, hfind, hb]

/-- C2 (counterexample): updating the credit-card bank of `c2Store` to
the KTA category while explicitly supplying billing day 7 does not fail
with any error; it succeeds and writes a null billing day. -/
theorem updateBank_nonCreditCard_billing_counterexample :
    updateBank c2Store c2Input = .ok (c2UpdatedBank, c2NewStore) := rfl

/-- Witness for C2's amended theorem at the concrete fixture. -/
theorem updateBank_nonCreditCard_billing_witness :
    (updateBank c2Store c2Input).map (fun x => x.1.tanggal_cetak_billing) = .ok none :=
  (updateBank_nonCreditCard_billing c2Store c2Input
    ⟨1, "Beta", 1000, .kartuKredit, some 5, 15⟩ rfl).1 .kta rfl (by decide)

/-- C4 (amended): on loan-transaction creation against an existing bank,
provided the installment billing-cycle check (which the source runs
first) passes, the operation fails with the limit-exceeded error — which
reports the current sum, the attempted new total and the limit — exactly
when the pre-existing loan sum plus the new amount strictly exceeds the
bank's credit limit; a new total equal to the limit is accepted, on
failure the store is unchanged, and on success exactly the new row is
appended. -/
theorem createLoanTransaction_limit (s : Store) (input : CreateLoanTransactionInput)
    (bankData : Bank)
    (hfind : s.banks.find? (fun b => b.id == input.bank_id) = some bankData)
    (hbill : billingCycleCheck bankData input = .ok ()) :
    ((createLoanTransaction s input).1 =
        .error (.limitExceeded (currentLoanSum s input.bank_id)
          (currentLoanSum s input.bank_id + input.jumlah_transaksi) bankData.limit_pinjaman)
      ↔ bankData.limit_pinjaman < currentLoanSum s input.bank_id + input.jumlah_transaksi)
    ∧ (bankData.limit_pinjaman < currentLoanSum s input.bank_id + input.jumlah_transaksi →
        (createLoanTransaction s input).2 = s)
    ∧ (currentLoanSum s input.bank_id + input.jumlah_transaksi ≤ bankData.limit_pinjaman →
        ∃ tx, (createLoanTransaction s input).1 = .ok tx ∧
          (createLoanTransaction s input).2.loanTransactions = s.loanTransactions ++ [tx]) := by
  by_cases hlt : bankData.limit_pinjaman < currentLoanSum s input.bank_id + input.jumlah_transaksi
  · have hc : createTxCheck s input =
        .error (.limitExceeded (currentLoanSum s input.bank_id)
          (currentLoanSum s input.bank_id + input.jumlah_transaksi) bankData.limit_pinjaman) := by
      unfold createTxCheck
      rw [hfind]
      simp only [hbill]
      rw [if_pos hlt]
    refine ⟨?_, ?_, ?_⟩
    · simp [createLoanTransaction, hc, hlt]
    · intro _
      simp [createLoanTransaction, hc]
    · intro hle
      exact absurd hlt (not_lt.mpr hle)
  · have hc : createTxCheck s input = .ok bankData := by
      unfold createTxCheck
      rw [hfind]
      simp only [hbill]
      rw [if_neg hlt]
    have hres : (createLoanTransaction s input).1 = .ok
        { id := s.nextTxId
          bank_id := input.bank_id
          tanggal_transaksi := input.tanggal_transaksi
          keterangan_transaksi := input.keterangan_transaksi
          jumlah_transaksi := input.jumlah_transaksi
          is_cicilan := input.is_cicilan } := by
      simp [createLoanTransaction, hc]
    refine ⟨?_, ?_, ?_⟩
    · constructor
      · intro h
        rw [hres] at h
        exact Except.noConfusion h
      · intro h
        exact absurd h hlt
    · intro h
      exact absurd h hlt
    · intro _
      refine ⟨{ id := s.nextTxId
                bank_id := input.bank_id
                tanggal_transaksi := input.tanggal_transaksi
                keterangan_transaksi := input.keterangan_transaksi
                jumlah_transaksi := input.jumlah_transaksi
                is_cicilan := input.is_cicilan }, hres, ?_⟩
      simp [createLoanTransaction, hc]

/-- C4 (counterexample to the claim as stated): an installment
credit-card transaction dated in the billing window whose amount also
exceeds the limit fails with the before-billing-date error, not the
limit-exceeded error, because the billing-cycle check runs first. -/
theorem createLoanTransaction_limit_counterexample :
    (createLoanTransaction c4Store c4Input).1 = .error .beforeBillingDate
    ∧ c4Bank.limit_pinjaman <
        currentLoanSum c4Store c4Input.bank_id + c4Input.jumlah_transaksi :=
  ⟨rfl, by decide⟩

/-- Witness for C4's amended theorem: the 200 transaction against the
empty-ledger bank with limit 100 fails with the limit-exceeded error
reporting current sum 0, attempted total 200 and limit 100. -/
theorem createLoanTransaction_limit_witness :
    (createLoanTransaction c4Store c4InputOk).1 = .error (.limitExceeded 0 200 100) := by
  have h2 := ((createLoanTransaction_limit c4Store c4InputOk c4Bank rfl rfl).1).mpr (by decide)
  rw [h2]
  rfl

/-- C5: the installment billing-cycle check applies exactly to
installment transactions on credit-card banks; there (with billing day
configured) the transaction is accepted when its day-of-month exceeds
the billing day, accepted when it is at most the billing day but
exceeds the due day, and otherwise creation fails with the
before-billing-date error; non-installment transactions and
transactions on non-credit-card banks pass the check unconditionally,
and a transaction that passes the check can never fail with the
before-billing-date error. -/
theorem createLoanTransaction_billing_cycle (s : Store)
    (input : CreateLoanTransactionInput) (bankData : Bank) (billingDay : Nat)
    (hfind : s.banks.find? (fun b => b.id == input.bank_id) = some bankData) :
    (bankData.jenis_pinjaman = .kartuKredit → input.is_cicilan = true →
      bankData.tanggal_cetak_billing = some billingDay →
      ((billingDay < input.tanggal_transaksi.day →
          billingCycleCheck bankData input = .ok ())
      ∧ (input.tanggal_transaksi.day ≤ billingDay →
          bankData.tanggal_jatuh_tempo < input.tanggal_transaksi.day →
          billingCycleCheck bankData input = .ok ())
      ∧ (input.tanggal_transaksi.day ≤ billingDay →
          input.tanggal_transaksi.day ≤ bankData.tanggal_jatuh_tempo →
          billingCycleCheck bankData input = .error .beforeBillingDate
          ∧ (createLoanTransaction s input).1 = .error .beforeBillingDate)))
    ∧ (¬(bankData.jenis_pinjaman = .kartuKredit ∧ input.is_cicilan = true) →
        billingCycleCheck bankData input = .ok ())
    ∧ (billingCycleCheck bankData input = .ok () →
        (createLoanTransaction s input).1 ≠ .error .beforeBillingDate) := by
  refine ⟨?_, ?_, ?_⟩
  · intro hkk hcic hbd
    have hcond : (bankData.jenis_pinjaman == LoanType.kartuKredit && input.is_cicilan) = true := by
      rw [hkk, hcic]
      rfl
    refine ⟨?_, ?_, ?_⟩
    · intro hgt
      unfold billingCycleCheck
      rw [hcond, hbd]
      simp only [if_true]
      rw [if_neg (by omega)]
    · intro hle hdue
      unfold billingCycleCheck
      rw [hcond, hbd]
      simp only [if_true]
      rw [if_pos hle, if_pos hdue]
    · intro hle hdue
      have hchk : billingCycleCheck bankData input = .error .beforeBillingDate := by
        unfold billingCycleCheck
        rw [hcond, hbd]
        simp only [if_true]
        rw [if_pos hle, if_neg (by omega)]
      refine ⟨hchk, ?_⟩
      have hc : createTxCheck s input = .error .beforeBillingDate := by
        unfold createTxCheck
        rw [hfind]
        simp only [hchk]
      simp [createLoanTransaction, hc]
  · intro hno
    have hcond : (bankData.jenis_pinjaman == LoanType.kartuKredit && input.is_cicilan) = false := by
      rcases h1 : bankData.jenis_pinjaman <;> rcases h2 : input.is_cicilan <;> simp_all
    unfold billingCycleCheck
    rw [hcond]
    rfl
  · intro hok
    unfold createLoanTransaction createTxCheck
    rw [hfind]
    simp only [hok]
    by_cases hl : bankData.limit_pinjaman <
        currentLoanSum s input.bank_id + input.jumlah_transaksi
    · rw [if_pos hl]
      simp
    · rw [if_neg hl]
      simp

/-- Witness for C5 at the concrete fixture: the installment transaction
on day 3 (billing day 10, due day 5) fails the check and creation fails
with the before-billing-date error. -/
theorem createLoanTransaction_billing_cycle_witness :
    billingCycleCheck c4Bank c4Input = .error .beforeBillingDate
    ∧ (createLoanTransaction c4Store c4Input).1 = .error .beforeBillingDate :=
  ((createLoanTransaction_billing_cycle c4Store c4Input c4Bank 10 rfl).1
    rfl rfl rfl).2.2 (by decide) (by decide)

/-- C6 (amended): on payment update, the operation fails with the
bank-not-found error when a bank id is supplied and no such bank
exists; when the bank check passes but no loan transaction has both the
target transaction id and the target bank id, it fails with the single
combined lookup error (covering both a nonexistent transaction and a
transaction owned by a different bank — there is no distinct
mismatched-owner error); and on success the referenced loan transaction
exists and its bank id equals the updated payment's bank id. -/
theorem updatePayment_ownership (s : Store) (input : UpdatePaymentInput)
    (existingPayment : Payment)
    (hp : s.payments.find? (fun q => q.id == input.id) = some existingPayment) :
    (∀ bid, input.bank_id = some bid → s.banks.find? (fun b => b.id == bid) = none →
      updatePayment s input = .error (.bankNotFound bid))
    ∧ (updatePaymentBankCheck s input = .ok () →
        s.loanTransactions.find? (fun t =>
          t.id == input.loan_transaction_id.getD existingPayment.loan_transaction_id &&
          t.bank_id == input.bank_id.getD existingPayment.bank_id) = none →
        updatePayment s input = .error (.loanTransactionNotFoundForBank
          (input.loan_transaction_id.getD existingPayment.loan_transaction_id)
          (input.bank_id.getD existingPayment.bank_id)))
    ∧ (∀ p' s', updatePayment s input = .ok (p', s') →
        ∃ tx ∈ s.loanTransactions, tx.id = p'.loan_transaction_id ∧
          tx.bank_id = p'.bank_id) := by
  refine ⟨?_, ?_, ?_⟩
  · intro bid hbid hnone
    have hchk : updatePaymentBankCheck s input = .error (.bankNotFound bid) := by
      unfold updatePaymentBankCheck
      rw [hbid]
      simp only [hnone]
    simp [updatePayment, hp, hchk]
  · intro hchk hfindtx
    simp [updatePayment, hp, hchk, hfindtx]
  · intro p' s' hok
    unfold updatePayment at hok
    rw [hp] at hok
    simp only [] at hok
    rcases hchk : updatePaymentBankCheck s input with e | u
    · rw [hchk] at hok
      exact Except.noConfusion hok
    · rw [hchk] at hok
      rcases hfindtx : s.loanTransactions.find? (fun t =>
          t.id == input.loan_transaction_id.getD existingPayment.loan_transaction_id &&
          t.bank_id == input.bank_id.getD existingPayment.bank_id) with _ | tx
      · rw [hfindtx] at hok
        exact Except.noConfusion hok
      · rw [hfindtx] at hok
        have hmem : tx ∈ s.loanTransactions := List.mem_of_find?_eq_some hfindtx
        have hpred := List.find?_some hfindtx
        simp only [Bool.and_eq_true, beq_iff_eq] at hpred
        have hp' : p' =
            { id := existingPayment.id
              bank_id := input.bank_id.getD existingPayment.bank_id
              loan_transaction_id :=
                input.loan_transaction_id.getD existingPayment.loan_transaction_id
              tanggal_pembayaran :=
                input.tanggal_pembayaran.getD existingPayment.tanggal_pembayaran
              jumlah_pembayaran :=
                input.jumlah_pembayaran.getD existingPayment.jumlah_pembayaran } := by
          have := congrArg (fun x => match x with
            | Except.ok (q, _) => q
            | Except.error _ => p') hok
          simpa using this.symm
        refine ⟨tx, hmem, ?_, ?_⟩
        · rw [hp']
          exact hpred.1
        · rw [hp']
          exact hpred.2

/-- C6 (counterexample): the nonexistent-transaction case and the
mismatched-owner case (transaction 1 exists but belongs to bank 1, not
the targeted bank 2) both fail with the same combined lookup error
constructor — the code raises no distinct mismatched-owner error on
update. -/
theorem updatePayment_ownership_counterexample :
    updatePayment c6Store c6MissingInput = .error (.loanTransactionNotFoundForBank 99 1)
    ∧ updatePayment c6Store c6MismatchInput =
        .error (.loanTransactionNotFoundForBank 1 2) :=
  ⟨rfl, rfl⟩

/-- Witness for C6's amended theorem: the amount-only update on
`c6Store` succeeds, and the referenced transaction's bank matches the
payment's bank. -/
theorem updatePayment_ownership_witness :
    ∃ tx ∈ c6Store.loanTransactions, tx.id = c6UpdatedPay.loan_transaction_id ∧
      tx.bank_id = c6UpdatedPay.bank_id :=
  (updatePayment_ownership c6Store c6GoodInput ⟨1, 1, 1, ⟨5, 1, 3, 0⟩, 30⟩ rfl).2.2
    c6UpdatedPay c6NewStore rfl

/-- C9: bank deletion fails with the not-found error when no bank with
the given id exists; when the bank exists and has dependent loan
transactions it fails with the dependent-transactions error carrying
their count (loan transactions are checked before payments, so a bank
with both kinds reports the transaction count); when it has no
dependent transactions but dependent payments it fails with the
dependent-payments error carrying their count; and with no dependents
of either kind the bank row is removed and the operation succeeds. -/
theorem deleteBank_guards (s : Store) (bankId : Nat) :
    (s.banks.find? (fun b => b.id == bankId) = none →
      deleteBank s bankId = .error .notFound)
    ∧ (∀ bank, s.banks.find? (fun b => b.id == bankId) = some bank →
        ((0 < (s.loanTransactions.filter (fun t => t.bank_id == bankId)).length →
            deleteBank s bankId = .error (.hasDependentTransactions
              (s.loanTransactions.filter (fun t => t.bank_id == bankId)).length))
        ∧ ((s.loanTransactions.filter (fun t => t.bank_id == bankId)).length = 0 →
            0 < (s.payments.filter (fun p => p.bank_id == bankId)).length →
            deleteBank s bankId = .error (.hasDependentPayments
              (s.payments.filter (fun p => p.bank_id == bankId)).length))
        ∧ ((s.loanTransactions.filter (fun t => t.bank_id == bankId)).length = 0 →
            (s.payments.filter (fun p => p.bank_id == bankId)).length = 0 →
            deleteBank s bankId =
              .ok { s with banks := s.banks.filter (fun b => !(b.id == bankId)) }
            ∧ ∀ s', deleteBank s bankId = .ok s' → ∀ b ∈ s'.banks, b.id ≠ bankId))) := by
  constructor
  · intro h
    simp [deleteBank, h]
  · intro bank hfind
    refine ⟨?_, ?_, ?_⟩
    · intro htx
      have h1 : ¬(s.loanTransactions.filter (fun t => t.bank_id == bankId)).length = 0 := by
        omega
      simp [deleteBank, hfind, htx]
    · intro htx hpay
      simp [deleteBank, hfind, htx, hpay]
    · intro htx hpay
      have hok : deleteBank s bankId =
          .ok { s with banks := s.banks.filter (fun b => !(b.id == bankId)) } := by
        simp [deleteBank, hfind, htx, hpay]
      refine ⟨hok, ?_⟩
      intro s' hs' b hb
      rw [hok] at hs'
      have hs2 : s' = { s with banks := s.banks.filter (fun b => !(b.id == bankId)) } := by
        cases hs'
        rfl
      rw [hs2] at hb
      have := List.of_mem_filter hb
      simp only [Bool.not_eq_eq_eq_not, Bool.not_true, beq_eq_false_iff_ne] at this
      exact this

/-- Witness for C9: deleting dependent-free bank 2 of `c9Store`
succeeds and removes it; the store keeps bank 1. -/
theorem deleteBank_guards_witness :
    deleteBank c9Store 2 =
      .ok { c9Store with banks := c9Store.banks.filter (fun b => !(b.id == 2)) } :=
  (((deleteBank_guards c9Store 2).2 ⟨2, "Kappa", 1000, .kta, none, 12⟩ rfl).2.2
    rfl rfl).1

/-- The first component of `createLoanTransaction` as a function of the
validation outcome. -/
theorem createLoanTransaction_fst (s : Store) (input : CreateLoanTransactionInput) :
    (createLoanTransaction s input).1 =
      match createTxCheck s input with
      | .error e => .error e
      | .ok _ => .ok
          { id := s.nextTxId
            bank_id := input.bank_id
            tanggal_transaksi := input.tanggal_transaksi
            keterangan_transaksi := input.keterangan_transaksi
            jumlah_transaksi := input.jumlah_transaksi
            is_cicilan := input.is_cicilan } := by
  unfold createLoanTransaction
  rcases createTxCheck s input with e | b <;> rfl

/-- C10: the outcome of loan-transaction creation is independent of the
payments table — two stores agreeing on banks and loan transactions
(payments arbitrary) produce the same success/failure outcome and the
same error — repaying loans never frees up credit-limit capacity; the
pre-existing sum the limit check uses ignores payments entirely and is
0 for a bank with no loan transactions. -/
theorem createLoanTransaction_payments_independent (s1 s2 : Store)
    (input : CreateLoanTransactionInput)
    (hb : s1.banks = s2.banks) (ht : s1.loanTransactions = s2.loanTransactions) :
    ((∃ tx, (createLoanTransaction s1 input).1 = .ok tx) ↔
      (∃ tx, (createLoanTransaction s2 input).1 = .ok tx))
    ∧ (∀ e, (createLoanTransaction s1 input).1 = .error e ↔
        (createLoanTransaction s2 input).1 = .error e)
    ∧ currentLoanSum s1 input.bank_id = currentLoanSum s2 input.bank_id
    ∧ (s1.loanTransactions.filter (fun t => t.bank_id == input.bank_id) = [] →
        currentLoanSum s1 input.bank_id = 0) := by
  have hsum : currentLoanSum s1 input.bank_id = currentLoanSum s2 input.bank_id := by
    unfold currentLoanSum
    rw [ht]
  have hcheck : createTxCheck s1 input = createTxCheck s2 input := by
    unfold createTxCheck currentLoanSum
    rw [hb, ht]
  rcases hc : createTxCheck s2 input with e0 | bank
  · have h1 : (createLoanTransaction s1 input).1 = .error e0 := by
      rw [createLoanTransaction_fst, hcheck.trans hc]
    have h2 : (createLoanTransaction s2 input).1 = .error e0 := by
      rw [createLoanTransaction_fst, hc]
    refine ⟨?_, ?_, hsum, ?_⟩
    · constructor
      · rintro ⟨tx, htx⟩
        rw [h1] at htx
        exact Except.noConfusion htx
      · rintro ⟨tx, htx⟩
        rw [h2] at htx
        exact Except.noConfusion htx
    · intro e
      rw [h1, h2]
    · intro hnil
      unfold currentLoanSum
      rw [hnil]
      rfl
  · have h1 : (createLoanTransaction s1 input).1 = .ok
        { id := s1.nextTxId
          bank_id := input.bank_id
          tanggal_transaksi := input.tanggal_transaksi
          keterangan_transaksi := input.keterangan_transaksi
          jumlah_transaksi := input.jumlah_transaksi
          is_cicilan := input.is_cicilan } := by
      rw [createLoanTransaction_fst, hcheck.trans hc]
    have h2 : (createLoanTransaction s2 input).1 = .ok
        { id := s2.nextTxId
          bank_id := input.bank_id
          tanggal_transaksi := input.tanggal_transaksi
          keterangan_transaksi := input.keterangan_transaksi
          jumlah_transaksi := input.jumlah_transaksi
          is_cicilan := input.is_cicilan } := by
      rw [createLoanTransaction_fst, hc]
    refine ⟨?_, ?_, hsum, ?_⟩
    · exact iff_of_true ⟨_, h1⟩ ⟨_, h2⟩
    · intro e
      rw [h1, h2]
      constructor
      · intro h
        exact Except.noConfusion h
      · intro h
        exact Except.noConfusion h
    · intro hnil
      unfold currentLoanSum
      rw [hnil]
      rfl

/-- Witness for C10: the 800 loan is rejected for exceeding the limit
in both the payment-free store and the fully-repaid store, and the
700 loan (reaching the limit exactly) is accepted in the payment-free
store because it is accepted in the fully-repaid one. -/
theorem createLoanTransaction_payments_independent_witness :
    ((createLoanTransaction c10StoreA c10Input).1 = .error (.limitExceeded 300 1100 1000) ↔
      (createLoanTransaction c10StoreB c10Input).1 = .error (.limitExceeded 300 1100 1000))
    ∧ (∃ tx, (createLoanTransaction c10StoreA c10InputOk).1 = .ok tx) :=
  ⟨(createLoanTransaction_payments_independent c10StoreA c10StoreB c10Input rfl rfl).2.1
      (.limitExceeded 300 1100 1000),
    ((createLoanTransaction_payments_independent c10StoreA c10StoreB c10InputOk
      rfl rfl).1).mpr ⟨c10Tx, rfl⟩⟩
